import Mathlib

/-!
Verification of the commit-boost signer core: a shallow embedding of
`crates/signer/src/manager/dirk.rs` (the Dirk backend), the error surface of
`crates/signer/src/error.rs`, and the Dirk arms of the HTTP handlers in
`crates/signer/src/service.rs`.

External effects (Dirk RPC responses, filesystem reads and writes) are supplied
by an explicit environment record; each embedded operation returns the list of
outward events it performed (requests sent, files written) together with its
result, so ordering and counting properties can be stated over the trace.
-/

namespace CommitBoost

/-- Byte strings (Rust `Vec<u8>` / fixed byte arrays) as lists of naturals. -/
abbrev Bytes := List Nat

/-- A single lower-case hex digit character for a value below 16. -/
def hexDigit (n : Nat) : Char :=
  if n < 10 then Char.ofNat (48 + n) else Char.ofNat (87 + n)

/-- Two lower-case hex characters for one byte, as in `alloy::hex::encode`. -/
def hexByte (b : Nat) : String :=
  String.mk [hexDigit (b / 16 % 16), hexDigit (b % 16)]

/-- Modelled from the spec: hex encoding of a byte string (`hex::encode`,
provided by the external `alloy` crate): lower-case, two digits per byte. -/
def hexEncode (bs : Bytes) : String :=
  String.join (bs.map hexByte)

/-- The bytes of a Rust `str::as_bytes` call, one entry per character. -/
def strBytes (s : String) : Bytes :=
  s.data.map Char.toNat

/-- A single-character string holding an apostrophe, used to spell the quoted
account names appearing in the source error messages. -/
def quoteMark : String :=
  String.singleton (Char.ofNat 39)

/-- Modelled from the spec: `BlsPublicKey::try_from(&[u8])` of the external
`cb_common` crate succeeds exactly on 48-byte inputs (a BLS public key is 48
bytes, spec section 3). -/
def blsTryFrom (b : Bytes) : Option Bytes :=
  if b.length = 48 then some b else none

/-- Modelled from the spec: `FixedBytes::<96>::try_from(&[u8])` of the external
`alloy` crate succeeds exactly on 96-byte inputs (a BLS signature is 96 bytes,
spec section 4.1). -/
def blsSigTryFrom (b : Bytes) : Option Bytes :=
  if b.length = 96 then some b else none

/-- Modelled from the spec: the constant commit-boost domain mask of
`cb_common::constants` ("a constant" mixed into every domain, glossary). -/
def COMMIT_BOOST_DOMAIN : Bytes := [109, 109, 111, 67]

/-- A named chain configuration; only the data that feeds domain separation is
kept ("a 32-byte domain-separation tag derived from chain metadata and a
constant", spec glossary). -/
structure Chain where
  forkData : Bytes
deriving DecidableEq

/-- Modelled from the spec: `compute_domain(chain, domain_mask)` of
`cb_common::signature`: the four mask bytes followed by 28 bytes of chain
metadata (spec glossary, commit-boost domain). -/
def compute_domain (chain : Chain) (mask : Bytes) : Bytes :=
  mask.take 4 ++ chain.forkData.take 28

/-- Dirk response states (`proto ResponseState`); only `succeeded` is
success. -/
inductive ResponseState
  | unknown
  | succeeded
  | denied
  | failed
deriving DecidableEq

/-- The signer error taxonomy of `crates/signer/src/error.rs`. -/
inductive SignerModuleError
  | Unauthorized
  | UnknownConsensusSigner (pk : Bytes)
  | UnknownProxySigner (pk : Bytes)
  | DirkCommunicationError (msg : String)
  | DirkNotSupported
  | Internal (msg : String)
deriving DecidableEq

/-- The `Display` rendering of `SignerModuleError` given by the `#[error]`
attributes in `crates/signer/src/error.rs`. -/
def SignerModuleError.errString : SignerModuleError → String
  | .Unauthorized => "unauthorized"
  | .UnknownConsensusSigner pk => "unknown consensus signer: 0x" ++ hexEncode pk
  | .UnknownProxySigner pk => "unknown proxy signer: 0x" ++ hexEncode pk
  | .DirkCommunicationError msg => "Dirk communication error: " ++ msg
  | .DirkNotSupported => "Dirk signer does not support this operation"
  | .Internal msg => "internal error: " ++ msg

/-- An HTTP response as produced by the signer service: status code and
body. -/
structure HttpResponse where
  status : Nat
  body : String
deriving DecidableEq

/-- `impl IntoResponse for SignerModuleError` in
`crates/signer/src/error.rs`. -/
def SignerModuleError.into_response : SignerModuleError → HttpResponse
  | .Unauthorized => ⟨401, SignerModuleError.Unauthorized.errString⟩
  | .UnknownConsensusSigner pk => ⟨404, (SignerModuleError.UnknownConsensusSigner pk).errString⟩
  | .UnknownProxySigner pk => ⟨404, (SignerModuleError.UnknownProxySigner pk).errString⟩
  | .DirkCommunicationError _ => ⟨502, "Dirk communication error"⟩
  | .DirkNotSupported => ⟨400, SignerModuleError.DirkNotSupported.errString⟩
  | .Internal _ => ⟨500, "internal error"⟩

/-- A cached Dirk account (`struct Account` in `manager/dirk.rs`). -/
structure Account where
  wallet : String
  name : String
  public_key : Option Bytes
deriving DecidableEq

/-- `Account::complete_name`: `wallet/name`. -/
def Account.complete_name (a : Account) : String :=
  a.wallet ++ "/" ++ a.name

/-- An account as returned by Dirk `Lister.ListAccounts`
(`proto Account`). -/
structure DirkAccount where
  name : String
  public_key : Bytes
deriving DecidableEq

/-- The Dirk manager state (`struct DirkManager` in `manager/dirk.rs`); the
RPC channel is replaced by the explicit environments below, and the proxy
store by a flag recording whether one is configured. -/
structure DirkManager where
  chain : Chain
  accounts : List Account
  unlock : Bool
  secrets_path : String
  proxy_store : Option Unit
deriving DecidableEq

/-- Outward events performed by the embedded operations: Dirk RPC requests and
filesystem or proxy-store effects, in the order the source issues them. -/
inductive Event
  | listAccountsReq (paths : List String)
  | signReq (id : Bytes) (domain : Bytes) (data : Bytes)
  | unlockReq (account : String) (passphrase : Bytes)
  | generateReq (account : String) (passphrase : Bytes) (participants : Nat) (threshold : Nat)
  | createDirAll (path : String)
  | writeFile (path : String) (contents : String)
  | readFile (path : String)
  | storeBlsDelegation (moduleId : String) (delegator : Bytes) (proxy : Bytes) (signature : Bytes)
deriving DecidableEq

/-- The payload of a Dirk `Signer.Sign` response: a state and signature
bytes. -/
structure SignResponse where
  state : ResponseState
  signature : Bytes
deriving DecidableEq

/-- The payload of a Dirk `Lister.ListAccounts` response. -/
structure ListResponse where
  state : ResponseState
  accounts : List DirkAccount
deriving DecidableEq

/-- Environment for one `request_signature` call: the transport-level result
of the first `Sign`, of the (at most one) `ListAccounts`, the passphrase file
read, the `Unlock` response state, and the retried `Sign`. A `.error` value is
a transport (RPC or filesystem) failure. -/
structure SignEnv where
  sign1 : Except String SignResponse
  list : Except String ListResponse
  passwordFile : Except String String
  unlockResp : Except String ResponseState
  sign2 : Except String SignResponse

/-- `get_accounts_in_wallets` in `manager/dirk.rs`: one `ListAccounts`
request; transport failure or a non-succeeded state is a
`DirkCommunicationError`. -/
def get_accounts_in_wallets (resp : Except String ListResponse) (wallets : List String) :
    List Event × Except SignerModuleError (List DirkAccount) :=
  ([Event.listAccountsReq wallets],
    match resp with
    | .error err => .error (.DirkCommunicationError ("error listing accounts: " ++ err))
    | .ok r =>
      if r.state ≠ ResponseState.succeeded then
        .error (.DirkCommunicationError "list accounts request returned error")
      else
        .ok r.accounts)

/-- `DirkManager::get_all_accounts`: list the accounts of all configured
wallets. -/
def DirkManager.get_all_accounts (m : DirkManager) (resp : Except String ListResponse) :
    List Event × Except SignerModuleError (List DirkAccount) :=
  get_accounts_in_wallets resp (m.accounts.map Account.wallet)

/-- The cache lookup inside `DirkManager::get_pubkey_account`: the first
configured account whose resolved public key matches. -/
def cacheLookup (m : DirkManager) (pubkey : Bytes) : Option Account :=
  m.accounts.find? (fun a => decide (a.public_key = some pubkey))

/-- The fallback lookup inside `DirkManager::get_pubkey_account`: the first
Dirk-listed account with the given public key bytes. -/
def listedLookup (accounts : List DirkAccount) (pubkey : Bytes) : Option DirkAccount :=
  accounts.find? (fun a => decide (a.public_key = pubkey))

/-- `DirkManager::get_pubkey_account`: the complete account name for a public
key, from the cache first and then via a fresh `ListAccounts`. -/
def DirkManager.get_pubkey_account (m : DirkManager) (listResp : Except String ListResponse)
    (pubkey : Bytes) : List Event × Except SignerModuleError (Option String) :=
  match cacheLookup m pubkey with
  | some account => ([], .ok (some account.complete_name))
  | none =>
    let (tr, res) := m.get_all_accounts listResp
    (tr,
      match res with
      | .error e => .error e
      | .ok accounts =>
        match listedLookup accounts pubkey with
        | some a => .ok (some a.name)
        | none => .ok none)

/-- `DirkManager::read_password`: read the persisted passphrase file; a
filesystem failure is an `Internal` error. -/
def DirkManager.read_password (m : DirkManager) (fileRes : Except String String)
    (account : String) : List Event × Except SignerModuleError String :=
  ([Event.readFile (m.secrets_path ++ "/" ++ account)],
    match fileRes with
    | .ok s => .ok s
    | .error err =>
      .error (.Internal ("error reading password for account " ++ quoteMark ++ account ++
        quoteMark ++ ": " ++ err)))

/-- `str::rsplit_once` at the character given, over a character list: split at
the last occurrence. -/
def rsplitOnceAux (c : Char) : List Char → Option (List Char × List Char)
  | [] => none
  | x :: rest =>
    match rsplitOnceAux c rest with
    | some (l, r) => some (x :: l, r)
    | none => if x = c then some ([], rest) else none

/-- `String::rsplit_once("/")`: the segments before and after the last
slash. -/
def rsplitOnceSlash (s : String) : Option (String × String) :=
  (rsplitOnceAux '/' s.data).map (fun p => (String.mk p.1, String.mk p.2))

/-- `DirkManager::store_password`: create the account directory and write the
passphrase file; filesystem failures are `Internal` errors. -/
def DirkManager.store_password (m : DirkManager) (dirRes : Except String Unit)
    (writeRes : Except String Unit) (account : String) (password : String) :
    List Event × Except SignerModuleError Unit :=
  match rsplitOnceSlash account with
  | none =>
    ([], .error (.Internal ("account name " ++ quoteMark ++ account ++ quoteMark ++
      " is invalid")))
  | some (d, _) =>
    let account_dir := m.secrets_path ++ "/" ++ d
    match dirRes with
    | .error err =>
      ([Event.createDirAll account_dir],
        .error (.Internal ("error creating dir " ++ quoteMark ++ account_dir ++ quoteMark ++
          ": " ++ err)))
    | .ok _ =>
      match writeRes with
      | .error err =>
        ([Event.createDirAll account_dir,
          Event.writeFile (m.secrets_path ++ "/" ++ account) password],
          .error (.Internal ("error writing password for account " ++ quoteMark ++ account ++
            quoteMark ++ ": " ++ err)))
      | .ok _ =>
        ([Event.createDirAll account_dir,
          Event.writeFile (m.secrets_path ++ "/" ++ account) password],
          .ok ())

/-- `DirkManager::unlock_account`: one `AccountManager.Unlock` request;
transport failure or a non-succeeded state is a `DirkCommunicationError`. -/
def unlock_account (unlockRes : Except String ResponseState) (account : String)
    (password : String) : List Event × Except SignerModuleError Unit :=
  ([Event.unlockReq account (strBytes password)],
    match unlockRes with
    | .error err =>
      .error (.DirkCommunicationError ("error unlocking account " ++ quoteMark ++ account ++
        quoteMark ++ ": " ++ err))
    | .ok st =>
      if st ≠ ResponseState.succeeded then
        .error (.DirkCommunicationError ("unlock request for " ++ quoteMark ++ account ++
          quoteMark ++ " returned error"))
      else
        .ok ())

/-- The unlock-and-retry arm of `DirkManager::request_signature` (taken when
the first sign response is `Denied` and the unlock flag is set): resolve the
account, read its passphrase, unlock, and send the second `Sign`. -/
def DirkManager.sign_retry (m : DirkManager) (env : SignEnv) (pubkey : Bytes)
    (object_root : Bytes) (domain : Bytes) :
    List Event × Except SignerModuleError SignResponse :=
  let (tr1, acctRes) := m.get_pubkey_account env.list pubkey
  match acctRes with
  | .error e => (tr1, .error e)
  | .ok none => (tr1, .error (.UnknownConsensusSigner pubkey))
  | .ok (some account_name) =>
    let (tr2, pwRes) := m.read_password env.passwordFile account_name
    match pwRes with
    | .error e => (tr1 ++ tr2, .error e)
    | .ok pw =>
      let (tr3, unRes) := unlock_account env.unlockResp account_name pw
      match unRes with
      | .error e => (tr1 ++ tr2 ++ tr3, .error e)
      | .ok _ =>
        match env.sign2 with
        | .error err =>
          (tr1 ++ tr2 ++ tr3 ++ [Event.signReq pubkey domain object_root],
            .error (.DirkCommunicationError ("error on sign request: " ++ err)))
        | .ok resp2 =>
          (tr1 ++ tr2 ++ tr3 ++ [Event.signReq pubkey domain object_root], .ok resp2)

/-- `DirkManager::request_signature`: compute the commit-boost domain, send
`Sign`, optionally unlock and retry once, and parse the signature. -/
def DirkManager.request_signature (m : DirkManager) (env : SignEnv) (pubkey : Bytes)
    (object_root : Bytes) : List Event × Except SignerModuleError Bytes :=
  let domain := compute_domain m.chain COMMIT_BOOST_DOMAIN
  match env.sign1 with
  | .error err =>
    ([Event.signReq pubkey domain object_root],
      .error (.DirkCommunicationError ("error on sign request: " ++ err)))
  | .ok resp1 =>
    let (tr, res) :=
      if resp1.state = ResponseState.denied ∧ m.unlock = true then
        m.sign_retry env pubkey object_root domain
      else
        ([], .ok resp1)
    (Event.signReq pubkey domain object_root :: tr,
      match res with
      | .error e => .error e
      | .ok resp =>
        if resp.state ≠ ResponseState.succeeded then
          .error (.DirkCommunicationError "sign request returned error")
        else
          match blsSigTryFrom resp.signature with
          | none => .error (.DirkCommunicationError "return value is not a valid signature")
          | some sig => .ok sig)

/-- A consensus-to-proxies mapping entry
(`cb_common::commit::request::ConsensusProxyMap`). -/
structure ConsensusProxyMap where
  consensus : Bytes
  proxy_bls : List Bytes
  proxy_ecdsa : List Bytes
deriving DecidableEq

/-- Rust `String::starts_with` over the underlying characters. -/
def strStartsWith (pfx s : String) : Bool :=
  pfx.data.isPrefixOf s.data

/-- `DirkManager::get_consensus_proxy_maps`: fresh `ListAccounts`, then one
map per cached consensus account with a known key, collecting as `proxy_bls`
the keys of listed accounts named under
`<consensus_complete_name>/<module_id>/`. -/
def DirkManager.get_consensus_proxy_maps (m : DirkManager)
    (listResp : Except String ListResponse) (module_id : String) :
    List Event × Except SignerModuleError (List ConsensusProxyMap) :=
  let (tr, res) := m.get_all_accounts listResp
  (tr,
    match res with
    | .error e => .error e
    | .ok accounts =>
      .ok (m.accounts.filterMap (fun consensus_account =>
        match consensus_account.public_key with
        | none => none
        | some consensus_key =>
          let proxy_keys := accounts.filterMap (fun account =>
            if strStartsWith (consensus_account.complete_name ++ "/" ++ module_id ++ "/")
                account.name then
              blsTryFrom account.public_key
            else
              none)
          some ⟨consensus_key, proxy_keys, []⟩)))

/-- A signed proxy delegation
(`cb_common::commit::request::SignedProxyDelegation`), flattened: the
delegation message `(delegator, proxy)` plus the consensus signature. -/
structure SignedProxyDelegation where
  delegator : Bytes
  proxy : Bytes
  signature : Bytes
deriving DecidableEq

/-- Modelled from the spec: `tree_hash_root` of a `ProxyDelegation` message
(external `tree_hash` crate): a 32-byte root determined by the delegator and
proxy keys (spec section 3). -/
def delegationRoot (delegator proxy : Bytes) : Bytes :=
  (delegator ++ proxy).take 32

/-- Environment for one `generate_proxy_key` call: the minted uuid and random
passphrase, the `ListAccounts` used to resolve the consensus account, the
`Generate` response (state and returned key bytes), the directory-creation and
file-write results, the `Unlock` response, the nested signature environment,
and the proxy-store persist result. -/
structure GenEnv where
  uuid : String
  password : String
  list : Except String ListResponse
  generateResp : Except String (ResponseState × Bytes)
  dirRes : Except String Unit
  writeRes : Except String Unit
  unlockResp : Except String ResponseState
  signEnv : SignEnv
  storeRes : Except String Unit

/-- `DirkManager::generate_proxy_key`: resolve and check the consensus
account, `Generate` the proxy account, persist the passphrase, parse the new
key, `Unlock`, sign the delegation with the consensus key, and optionally
persist the delegation. -/
def DirkManager.generate_proxy_key (m : DirkManager) (env : GenEnv) (module_id : String)
    (consensus_pubkey : Bytes) : List Event × Except SignerModuleError SignedProxyDelegation :=
  let (tr0, acctRes) := m.get_pubkey_account env.list consensus_pubkey
  match acctRes with
  | .error e => (tr0, .error e)
  | .ok none => (tr0, .error (.UnknownConsensusSigner consensus_pubkey))
  | .ok (some consensus_account) =>
    if ((m.accounts.map Account.complete_name).contains consensus_account) = false then
      (tr0, .error (.UnknownConsensusSigner consensus_pubkey))
    else
      let account_name := consensus_account ++ "/" ++ module_id ++ "/" ++ env.uuid
      let new_password := env.password
      let genEvent := Event.generateReq account_name (strBytes new_password) 1 1
      match env.generateResp with
      | .error err =>
        (tr0 ++ [genEvent],
          .error (.DirkCommunicationError ("error on generate request: " ++ err)))
      | .ok (st, retKey) =>
        if st ≠ ResponseState.succeeded then
          (tr0 ++ [genEvent],
            .error (.DirkCommunicationError "generate request returned error"))
        else
          let (tr1, storeRes) := m.store_password env.dirRes env.writeRes account_name
            new_password
          match storeRes with
          | .error e => (tr0 ++ [genEvent] ++ tr1, .error e)
          | .ok _ =>
            match blsTryFrom retKey with
            | none =>
              (tr0 ++ [genEvent] ++ tr1,
                .error (.DirkCommunicationError "return value is not a valid public key"))
            | some proxy_key =>
              let (tr2, unRes) := unlock_account env.unlockResp account_name new_password
              match unRes with
              | .error e => (tr0 ++ [genEvent] ++ tr1 ++ tr2, .error e)
              | .ok _ =>
                let (tr3, sigRes) := m.request_signature env.signEnv consensus_pubkey
                  (delegationRoot consensus_pubkey proxy_key)
                match sigRes with
                | .error e => (tr0 ++ [genEvent] ++ tr1 ++ tr2 ++ tr3, .error e)
                | .ok signature =>
                  let delegation : SignedProxyDelegation :=
                    ⟨consensus_pubkey, proxy_key, signature⟩
                  match m.proxy_store with
                  | none => (tr0 ++ [genEvent] ++ tr1 ++ tr2 ++ tr3, .ok delegation)
                  | some _ =>
                    let storeEvent := Event.storeBlsDelegation module_id consensus_pubkey
                      proxy_key signature
                    match env.storeRes with
                    | .error err =>
                      (tr0 ++ [genEvent] ++ tr1 ++ tr2 ++ tr3 ++ [storeEvent],
                        .error (.Internal ("error storing delegation signature: " ++ err)))
                    | .ok _ =>
                      (tr0 ++ [genEvent] ++ tr1 ++ tr2 ++ tr3 ++ [storeEvent], .ok delegation)

/-- The body of a `request_signature` HTTP call
(`cb_common::commit::request::SignRequest`). -/
inductive SignRequest
  | Consensus (pubkey : Bytes) (object_root : Bytes)
  | ProxyBls (pubkey : Bytes) (object_root : Bytes)
  | ProxyEcdsa (pubkey : Bytes) (object_root : Bytes)
deriving DecidableEq

/-- The proxy key scheme of a `generate_proxy_key` HTTP call. -/
inductive EncryptionScheme
  | Bls
  | Ecdsa
deriving DecidableEq

/-- The success response of the signature handlers: `Json(sig)` rendered as a
quoted hex string. -/
def jsonSignature (sig : Bytes) : HttpResponse :=
  ⟨200, "\"0x" ++ hexEncode sig ++ "\""⟩

/-- The Dirk arm of `handle_request_signature` in `service.rs`: dispatch on
the request variant; any backend error is rewrapped as
`SignerModuleError::Internal(err.to_string())` before it is converted to a
response, and `ProxyEcdsa` is rejected with `DirkNotSupported` directly. -/
def handle_request_signature_dirk (m : DirkManager) (env : SignEnv)
    (request : SignRequest) : List Event × HttpResponse :=
  match request with
  | .Consensus pubkey object_root =>
    let (tr, res) := m.request_signature env pubkey object_root
    (tr,
      match res with
      | .ok sig => jsonSignature sig
      | .error err => (SignerModuleError.Internal err.errString).into_response)
  | .ProxyBls pubkey object_root =>
    let (tr, res) := m.request_signature env pubkey object_root
    (tr,
      match res with
      | .ok sig => jsonSignature sig
      | .error err => (SignerModuleError.Internal err.errString).into_response)
  | .ProxyEcdsa _ _ =>
    ([], SignerModuleError.DirkNotSupported.into_response)

/-- The Dirk arm of `handle_generate_proxy` in `service.rs`: `Bls` dispatches
to `generate_proxy_key` with errors rewrapped as `Internal`; `Ecdsa` is
rejected with `DirkNotSupported` directly. -/
def handle_generate_proxy_dirk (m : DirkManager) (env : GenEnv) (module_id : String)
    (scheme : EncryptionScheme) (consensus_pubkey : Bytes) : List Event × HttpResponse :=
  match scheme with
  | .Bls =>
    let (tr, res) := m.generate_proxy_key env module_id consensus_pubkey
    (tr,
      match res with
      | .ok _d => ⟨200, "signed proxy delegation"⟩
      | .error err => (SignerModuleError.Internal err.errString).into_response)
  | .Ecdsa =>
    ([], SignerModuleError.DirkNotSupported.into_response)

/-- Whether an event is a `Sign` request. -/
def Event.isSign : Event → Bool
  | .signReq _ _ _ => true
  | _ => false

/-- The number of `Sign` requests in an event trace. -/
def signCount (tr : List Event) : Nat :=
  tr.countP Event.isSign

/-- Whether an event is a `Generate` request. -/
def Event.isGenerate : Event → Bool
  | .generateReq _ _ _ _ => true
  | _ => false

/-- Whether an event is a passphrase file write. -/
def Event.isWrite : Event → Bool
  | .writeFile _ _ => true
  | _ => false

/-! ## Helper lemmas on the trace of each embedded operation -/

/-- The trace of `get_pubkey_account` is empty (cache hit) or a single
`ListAccounts` request over the configured wallets. -/
theorem get_pubkey_account_trace (m : DirkManager) (l : Except String ListResponse)
    (pk : Bytes) :
    (m.get_pubkey_account l pk).1 = [] ∨
      (m.get_pubkey_account l pk).1 =
        [Event.listAccountsReq (m.accounts.map Account.wallet)] := by
  unfold DirkManager.get_pubkey_account
  cases hc : cacheLookup m pk with
  | some a => exact Or.inl rfl
  | none =>
    right
    simp only [DirkManager.get_all_accounts, get_accounts_in_wallets]

/-- `get_pubkey_account` only ever fails with a communication error. -/
theorem get_pubkey_account_err (m : DirkManager) (l : Except String ListResponse)
    (pk : Bytes) (e : SignerModuleError)
    (h : (m.get_pubkey_account l pk).2 = .error e) :
    ∃ msg, e = SignerModuleError.DirkCommunicationError msg := by
  unfold DirkManager.get_pubkey_account at h
  cases hc : cacheLookup m pk with
  | some a => rw [hc] at h; simp at h
  | none =>
    rw [hc] at h
    simp only [DirkManager.get_all_accounts, get_accounts_in_wallets] at h
    cases l with
    | error err =>
      simp at h
      exact ⟨_, h.symm⟩
    | ok r =>
      by_cases hs : r.state = ResponseState.succeeded
      · simp [hs] at h
        cases hl : listedLookup r.accounts pk <;> simp [hl] at h
      · simp [hs] at h
        exact ⟨_, h.symm⟩

/-- Every `Sign` request in the unlock-retry arm carries exactly the given
key, domain and object root, and the arm sends at most one `Sign`. -/
theorem sign_retry_signs (m : DirkManager) (env : SignEnv) (pk root dom : Bytes) :
    (∀ i d dat, Event.signReq i d dat ∈ (m.sign_retry env pk root dom).1 →
      i = pk ∧ d = dom ∧ dat = root) ∧
    signCount (m.sign_retry env pk root dom).1 ≤ 1 := by
  unfold DirkManager.sign_retry
  rcases hA : m.get_pubkey_account env.list pk with ⟨tr0, acctRes⟩
  have htr0 : tr0 = [] ∨ tr0 = [Event.listAccountsReq (m.accounts.map Account.wallet)] := by
    have h := get_pubkey_account_trace m env.list pk
    rw [hA] at h
    exact h
  dsimp only
  have hns : ∀ i d dat, Event.signReq i d dat ∉ tr0 := by
    rcases htr0 with h | h <;> subst h <;> simp
  have hc0 : List.countP Event.isSign tr0 = 0 := by
    rcases htr0 with h | h <;> subst h <;> simp [List.countP_cons, Event.isSign]
  cases acctRes with
  | error e =>
    refine ⟨fun i d dat hmem => absurd (by simpa using hmem) (hns i d dat), ?_⟩
    simp [signCount, hc0]
  | ok o =>
    cases o with
    | none =>
      refine ⟨fun i d dat hmem => absurd (by simpa using hmem) (hns i d dat), ?_⟩
      simp [signCount, hc0]
    | some account_name =>
      simp only [DirkManager.read_password, unlock_account]
      cases env.passwordFile with
      | error ferr =>
        constructor
        · intro i d dat hmem
          simp at hmem
          exact absurd hmem (hns i d dat)
        · simp [signCount, List.countP_append, List.countP_cons, Event.isSign, hc0]
      | ok pw =>
        cases env.unlockResp with
        | error uerr =>
          constructor
          · intro i d dat hmem
            simp at hmem
            exact absurd hmem (hns i d dat)
          · simp [signCount, List.countP_append, List.countP_cons, Event.isSign, hc0]
        | ok st =>
          by_cases hst : st = ResponseState.succeeded
          · simp only [hst, ne_eq, not_true_eq_false, if_false, ite_false]
            cases env.sign2 with
            | error serr =>
              constructor
              · intro i d dat hmem
                simp at hmem
                rcases hmem with hmem | ⟨h1, h2, h3⟩
                · exact absurd hmem (hns i d dat)
                · exact ⟨h1, h2, h3⟩
              · simp [signCount, List.countP_append, List.countP_cons, Event.isSign, hc0]
            | ok r2 =>
              constructor
              · intro i d dat hmem
                simp at hmem
                rcases hmem with hmem | ⟨h1, h2, h3⟩
                · exact absurd hmem (hns i d dat)
                · exact ⟨h1, h2, h3⟩
              · simp [signCount, List.countP_append, List.countP_cons, Event.isSign, hc0]
          · simp only [ne_eq, hst, not_false_eq_true, if_true, ite_true]
            constructor
            · intro i d dat hmem
              simp at hmem
              exact absurd hmem (hns i d dat)
            · simp [signCount, List.countP_append, List.countP_cons, Event.isSign, hc0]

/-- Every `Sign` request sent by `request_signature` (first send and retry
alike) carries exactly the requested key, the commit-boost domain of the
configured chain, and the requested object root; and at most two `Sign`
requests are sent. -/
theorem request_signature_signs (m : DirkManager) (env : SignEnv) (pk root : Bytes) :
    (∀ i d dat, Event.signReq i d dat ∈ (m.request_signature env pk root).1 →
      i = pk ∧ d = compute_domain m.chain COMMIT_BOOST_DOMAIN ∧ dat = root) ∧
    signCount (m.request_signature env pk root).1 ≤ 2 := by
  unfold DirkManager.request_signature
  cases env.sign1 with
  | error err =>
    constructor
    · intro i d dat hmem
      simpa using hmem
    · simp [signCount, List.countP_cons, Event.isSign]
  | ok resp1 =>
    dsimp only
    by_cases hcond : resp1.state = ResponseState.denied ∧ m.unlock = true
    · rw [if_pos hcond]
      have hsigns := (sign_retry_signs m env pk root
        (compute_domain m.chain COMMIT_BOOST_DOMAIN)).1
      have hcount := (sign_retry_signs m env pk root
        (compute_domain m.chain COMMIT_BOOST_DOMAIN)).2
      rcases hR : m.sign_retry env pk root (compute_domain m.chain COMMIT_BOOST_DOMAIN)
        with ⟨tr, res⟩
      rw [hR] at hsigns hcount
      dsimp only
      constructor
      · intro i d dat hmem
        simp at hmem
        rcases hmem with ⟨h1, h2, h3⟩ | hmem
        · exact ⟨h1, h2, h3⟩
        · exact hsigns i d dat hmem
      · simp [signCount, List.countP_cons, Event.isSign] at hcount ⊢
        omega
    · rw [if_neg hcond]
      constructor
      · intro i d dat hmem
        simpa using hmem
      · simp [signCount, List.countP_cons, Event.isSign]

/-- The unlock-retry arm never fails with `UnknownProxySigner`. -/
theorem sign_retry_not_proxy_err (m : DirkManager) (env : SignEnv) (pk root dom : Bytes)
    (v : Bytes) :
    (m.sign_retry env pk root dom).2 ≠ .error (.UnknownProxySigner v) := by
  unfold DirkManager.sign_retry
  rcases hA : m.get_pubkey_account env.list pk with ⟨tr0, acctRes⟩
  dsimp only
  cases acctRes with
  | error e =>
    intro h
    simp at h
    rcases get_pubkey_account_err m env.list pk e (by rw [hA]) with ⟨msg, hmsg⟩
    rw [hmsg] at h
    cases h
  | ok o =>
    cases o with
    | none => simp
    | some account_name =>
      simp only [DirkManager.read_password, unlock_account]
      cases env.passwordFile with
      | error ferr => simp
      | ok pw =>
        cases env.unlockResp with
        | error uerr => simp
        | ok st =>
          by_cases hst : st = ResponseState.succeeded
          · simp only [hst, ne_eq, not_true_eq_false, if_false, ite_false]
            cases env.sign2 with
            | error serr => simp
            | ok r2 => simp
          · simp only [ne_eq, hst, not_false_eq_true, if_true, ite_true]
            simp

/-- `request_signature` never fails with `UnknownProxySigner`, whatever key it
is asked to sign for. -/
theorem request_signature_not_proxy_err (m : DirkManager) (env : SignEnv)
    (pk root v : Bytes) :
    (m.request_signature env pk root).2 ≠ .error (.UnknownProxySigner v) := by
  unfold DirkManager.request_signature
  cases env.sign1 with
  | error err => simp
  | ok resp1 =>
    dsimp only
    by_cases hcond : resp1.state = ResponseState.denied ∧ m.unlock = true
    · rw [if_pos hcond]
      have hnp := sign_retry_not_proxy_err m env pk root
        (compute_domain m.chain COMMIT_BOOST_DOMAIN) v
      rcases hR : m.sign_retry env pk root (compute_domain m.chain COMMIT_BOOST_DOMAIN)
        with ⟨tr, res⟩
      rw [hR] at hnp
      dsimp only
      cases res with
      | error e =>
        intro h
        simp at h
        rw [h] at hnp
        exact hnp rfl
      | ok resp =>
        by_cases hs : resp.state = ResponseState.succeeded
        · simp only [hs, ne_eq, not_true_eq_false, if_false, ite_false]
          cases hb : blsSigTryFrom resp.signature <;> simp [hb]
        · simp [hs]
    · rw [if_neg hcond]
      dsimp only
      by_cases hs : resp1.state = ResponseState.succeeded
      · simp only [hs, ne_eq, not_true_eq_false, if_false, ite_false]
        cases hb : blsSigTryFrom resp1.signature <;> simp [hb]
      · simp [hs]

/-! ## Concrete fixtures for witnesses and evidence -/

/-- A sample chain configuration. -/
def sampleChain : Chain := ⟨List.replicate 32 7⟩

/-- A sample consensus public key (48 bytes of `0x01`). -/
def samplePk : Bytes := List.replicate 48 1

/-- A sample freshly generated proxy public key. -/
def sampleProxyPk : Bytes := List.replicate 48 3

/-- A sample 96-byte signature returned by Dirk. -/
def sampleSig : Bytes := List.replicate 96 5

/-- A sample 32-byte object root. -/
def sampleRoot : Bytes := List.replicate 32 0

/-- A configured consensus account whose public key resolved at startup. -/
def sampleAccount : Account := ⟨"wallet1", "acct1", some samplePk⟩

/-- A Dirk manager with one resolved consensus account, `unlock` set, and no
proxy store. -/
def sampleManager : DirkManager := ⟨sampleChain, [sampleAccount], true, "/secrets", none⟩

/-- The same manager with a proxy store configured. -/
def sampleManagerStore : DirkManager := ⟨sampleChain, [sampleAccount], true, "/secrets", some ()⟩

/-- A 48-byte public key known to nobody (48 bytes of `0x02`). -/
def pkUnknown : Bytes := List.replicate 48 2

/-- Environment in which the first `Sign` is denied and the key resolves to no
account: the fresh `ListAccounts` succeeds but returns nothing. -/
def envUnknown : SignEnv :=
  ⟨.ok ⟨ResponseState.denied, []⟩, .ok ⟨ResponseState.succeeded, []⟩,
    .error "unused", .error "unused", .error "unused"⟩

/-- Environment in which the first `Sign` fails at the transport level. -/
def envTransportFail : SignEnv :=
  ⟨.error "connection reset", .error "unused", .error "unused", .error "unused",
    .error "unused"⟩

/-- Environment exercising the full unlock-retry: denied first `Sign`,
passphrase read, successful unlock, successful second `Sign`. -/
def envRetryOk : SignEnv :=
  ⟨.ok ⟨ResponseState.denied, []⟩, .error "unused", .ok "pw",
    .ok ResponseState.succeeded, .ok ⟨ResponseState.succeeded, sampleSig⟩⟩

/-- Environment in which the unlock-retry fires but the second `Sign` is also
denied. -/
def envRetryDenied : SignEnv :=
  ⟨.ok ⟨ResponseState.denied, []⟩, .error "unused", .ok "pw",
    .ok ResponseState.succeeded, .ok ⟨ResponseState.denied, []⟩⟩

/-- Environment in which the first `Sign` immediately succeeds. -/
def envFirstOk : SignEnv :=
  ⟨.ok ⟨ResponseState.succeeded, sampleSig⟩, .error "unused", .error "unused",
    .error "unused", .error "unused"⟩

/-! ## Claim theorems -/

/-- C1 (code bug evidence). A `request_signature` whose pubkey is unknown to
the Dirk backend produces `UnknownConsensusSigner`, and the error type's own
response conversion would give 404 with body
`unknown consensus signer: 0x<hex>`; but the handler rewraps the error as
`Internal`, so the HTTP response actually served is 500 with the generic
`internal error` body, contradicting the claimed 404. -/
theorem c1_unknown_signer_response_evidence :
    (sampleManager.request_signature envUnknown pkUnknown sampleRoot).2 =
      .error (.UnknownConsensusSigner pkUnknown) ∧
    SignerModuleError.into_response (.UnknownConsensusSigner pkUnknown) =
      ⟨404, "unknown consensus signer: 0x" ++ hexEncode pkUnknown⟩ ∧
    (handle_request_signature_dirk sampleManager envUnknown
      (SignRequest.Consensus pkUnknown sampleRoot)).2 = ⟨500, "internal error"⟩ :=
  ⟨rfl, rfl, rfl⟩

/-- C2 (code bug evidence). A Dirk transport failure (and likewise a denied
retry) produces `DirkCommunicationError`, whose own response conversion is
502; but the handler rewraps it as `Internal`, so the HTTP response actually
served is 500 with the generic `internal error` body, contradicting the
claimed 502. -/
theorem c2_dirk_failure_response_evidence :
    (sampleManager.request_signature envTransportFail samplePk sampleRoot).2 =
      .error (.DirkCommunicationError "error on sign request: connection reset") ∧
    SignerModuleError.into_response
        (.DirkCommunicationError "error on sign request: connection reset") =
      ⟨502, "Dirk communication error"⟩ ∧
    (handle_request_signature_dirk sampleManager envTransportFail
      (SignRequest.Consensus samplePk sampleRoot)).2 = ⟨500, "internal error"⟩ ∧
    (sampleManager.request_signature envRetryDenied samplePk sampleRoot).2 =
      .error (.DirkCommunicationError "sign request returned error") ∧
    (handle_request_signature_dirk sampleManager envRetryDenied
      (SignRequest.Consensus samplePk sampleRoot)).2 = ⟨500, "internal error"⟩ :=
  ⟨rfl, rfl, rfl, rfl, rfl⟩

/-- C8. A `generate_proxy_key` request with scheme `Ecdsa` on the Dirk backend
is rejected with `DirkNotSupported` before any Dirk RPC is issued (the event
trace is empty), and the HTTP response is 400 with body
`Dirk signer does not support this operation`. -/
theorem c8_dirk_ecdsa_rejected (m : DirkManager) (env : GenEnv) (module_id : String)
    (pk : Bytes) :
    handle_generate_proxy_dirk m env module_id EncryptionScheme.Ecdsa pk =
      ([], ⟨400, "Dirk signer does not support this operation"⟩) :=
  rfl

/-- C5. Every `Sign` request the Dirk backend issues during
`request_signature` — the first send and the unlock-retry resend alike —
carries exactly the domain `compute_domain(chain, COMMIT_BOOST_DOMAIN)` of the
configured chain. -/
theorem c5_sign_domain (m : DirkManager) (env : SignEnv) (pk root i d dat : Bytes)
    (h : Event.signReq i d dat ∈ (m.request_signature env pk root).1) :
    d = compute_domain m.chain COMMIT_BOOST_DOMAIN :=
  ((request_signature_signs m env pk root).1 i d dat h).2.1

/-- Witness for C5: a concrete execution containing a `Sign` request, whose
domain the theorem identifies with the commit-boost domain. -/
theorem c5_sign_domain_witness :
    (Event.signReq samplePk (compute_domain sampleChain COMMIT_BOOST_DOMAIN) sampleRoot ∈
      (sampleManager.request_signature envFirstOk samplePk sampleRoot).1) ∧
    compute_domain sampleChain COMMIT_BOOST_DOMAIN =
      compute_domain sampleManager.chain COMMIT_BOOST_DOMAIN :=
  ⟨by decide,
    c5_sign_domain sampleManager envFirstOk samplePk sampleRoot samplePk
      (compute_domain sampleChain COMMIT_BOOST_DOMAIN) sampleRoot (by decide)⟩

/-- C9. When the unlock-retry fires (denied first `Sign`, unlock flag set) and
the persisted passphrase file cannot be read, the call aborts with `Internal`
(this, rather than `DirkCommunicationError`, is the choice the code makes):
`read_password` wraps the filesystem failure in
`SignerModuleError::Internal`. -/
theorem c9_missing_passphrase_internal (m : DirkManager) (env : SignEnv) (pk root : Bytes)
    (r1 : SignResponse) (name ferr : String)
    (h1 : env.sign1 = .ok r1) (h2 : r1.state = ResponseState.denied)
    (h3 : m.unlock = true)
    (h4 : (m.get_pubkey_account env.list pk).2 = .ok (some name))
    (h5 : env.passwordFile = .error ferr) :
    (m.request_signature env pk root).2 =
      .error (.Internal ("error reading password for account " ++ quoteMark ++ name ++
        quoteMark ++ ": " ++ ferr)) := by
  unfold DirkManager.request_signature
  rw [h1]
  dsimp only
  rw [if_pos ⟨h2, h3⟩]
  unfold DirkManager.sign_retry
  rcases hA : m.get_pubkey_account env.list pk with ⟨tr0, acctRes⟩
  rw [hA] at h4
  dsimp only at h4
  subst h4
  dsimp only
  simp [DirkManager.read_password, h5]

/-- Witness for C9: a concrete denied-then-unreadable-file execution. -/
theorem c9_missing_passphrase_internal_witness :
    (sampleManager.request_signature
        ⟨.ok ⟨ResponseState.denied, []⟩, .error "unused", .error "No such file",
          .error "unused", .error "unused"⟩ samplePk sampleRoot).2 =
      .error (.Internal ("error reading password for account " ++ quoteMark ++
        "wallet1/acct1" ++ quoteMark ++ ": " ++ "No such file")) :=
  c9_missing_passphrase_internal sampleManager
    ⟨.ok ⟨ResponseState.denied, []⟩, .error "unused", .error "No such file",
      .error "unused", .error "unused"⟩ samplePk sampleRoot
    ⟨ResponseState.denied, []⟩ "wallet1/acct1" "No such file" rfl rfl rfl rfl rfl

/-- C10. In the unlock-retry path, a pubkey that resolves to no account
(neither cached nor listed) yields `UnknownConsensusSigner(pubkey)`; and
`request_signature` can never fail with `UnknownProxySigner`, whatever key is
being signed for. -/
theorem c10_retry_unknown_is_consensus (m : DirkManager) (env : SignEnv) (pk root : Bytes)
    (r1 : SignResponse)
    (h1 : env.sign1 = .ok r1) (h2 : r1.state = ResponseState.denied)
    (h3 : m.unlock = true)
    (h4 : (m.get_pubkey_account env.list pk).2 = .ok none) :
    (m.request_signature env pk root).2 = .error (.UnknownConsensusSigner pk) ∧
    ∀ v, (m.request_signature env pk root).2 ≠ .error (.UnknownProxySigner v) := by
  refine ⟨?_, fun v => request_signature_not_proxy_err m env pk root v⟩
  unfold DirkManager.request_signature
  rw [h1]
  dsimp only
  rw [if_pos ⟨h2, h3⟩]
  unfold DirkManager.sign_retry
  rcases hA : m.get_pubkey_account env.list pk with ⟨tr0, acctRes⟩
  rw [hA] at h4
  dsimp only at h4
  subst h4
  dsimp only

/-- Witness for C10: a concrete execution in which the signed-for key is
unknown everywhere, reported as an unknown consensus signer. -/
theorem c10_retry_unknown_is_consensus_witness :
    (sampleManager.request_signature envUnknown pkUnknown sampleRoot).2 =
      .error (.UnknownConsensusSigner pkUnknown) :=
  (c10_retry_unknown_is_consensus sampleManager envUnknown pkUnknown sampleRoot
    ⟨ResponseState.denied, []⟩ rfl rfl rfl rfl).1

/-- C3. The unlock-retry discipline of `request_signature`: (a) no execution
sends more than two `Sign` requests; (b) when the first response is `Denied`
with `unlock=true` and the account is in the cache, the execution is exactly
first `Sign`, passphrase read, `Unlock`, one retried `Sign` — and a
non-succeeded final response yields `DirkCommunicationError`; (c) when the
account is not cached — the only possibility for proxy keys — a
`ListAccounts` resolves it before the passphrase read, and a non-succeeded
final response likewise yields `DirkCommunicationError`; (d) without the
`Denied`-and-unlock condition a non-succeeded response is immediately a
`DirkCommunicationError` with no retry. -/
theorem c3_unlock_retry_once (m : DirkManager) (env : SignEnv) (pk root : Bytes) :
    signCount (m.request_signature env pk root).1 ≤ 2 ∧
    (∀ r1 a pw r2,
      env.sign1 = .ok r1 → r1.state = ResponseState.denied → m.unlock = true →
      cacheLookup m pk = some a →
      env.passwordFile = .ok pw →
      env.unlockResp = .ok ResponseState.succeeded →
      env.sign2 = .ok r2 →
      (m.request_signature env pk root).1 =
        [Event.signReq pk (compute_domain m.chain COMMIT_BOOST_DOMAIN) root,
         Event.readFile (m.secrets_path ++ "/" ++ a.complete_name),
         Event.unlockReq a.complete_name (strBytes pw),
         Event.signReq pk (compute_domain m.chain COMMIT_BOOST_DOMAIN) root] ∧
      (r2.state ≠ ResponseState.succeeded →
        (m.request_signature env pk root).2 =
          .error (.DirkCommunicationError "sign request returned error"))) ∧
    (∀ r1 lr da pw r2,
      env.sign1 = .ok r1 → r1.state = ResponseState.denied → m.unlock = true →
      cacheLookup m pk = none →
      env.list = .ok lr → lr.state = ResponseState.succeeded →
      listedLookup lr.accounts pk = some da →
      env.passwordFile = .ok pw →
      env.unlockResp = .ok ResponseState.succeeded →
      env.sign2 = .ok r2 →
      (m.request_signature env pk root).1 =
        [Event.signReq pk (compute_domain m.chain COMMIT_BOOST_DOMAIN) root,
         Event.listAccountsReq (m.accounts.map Account.wallet),
         Event.readFile (m.secrets_path ++ "/" ++ da.name),
         Event.unlockReq da.name (strBytes pw),
         Event.signReq pk (compute_domain m.chain COMMIT_BOOST_DOMAIN) root] ∧
      (r2.state ≠ ResponseState.succeeded →
        (m.request_signature env pk root).2 =
          .error (.DirkCommunicationError "sign request returned error"))) ∧
    (∀ r1, env.sign1 = .ok r1 → ¬(r1.state = ResponseState.denied ∧ m.unlock = true) →
      r1.state ≠ ResponseState.succeeded →
      (m.request_signature env pk root).2 =
        .error (.DirkCommunicationError "sign request returned error")) := by
  refine ⟨(request_signature_signs m env pk root).2, ?_, ?_, ?_⟩
  · intro r1 a pw r2 h1 h2 h3 hc hpw hun hs2
    unfold DirkManager.request_signature
    rw [h1]
    dsimp only
    rw [if_pos ⟨h2, h3⟩]
    unfold DirkManager.sign_retry DirkManager.get_pubkey_account
    rw [hc]
    dsimp only
    simp only [DirkManager.read_password, unlock_account, hpw, hun]
    rw [hs2]
    dsimp only
    constructor
    · simp
    · intro hr2
      simp [hr2]
  · intro r1 lr da pw r2 h1 h2 h3 hc hl hls hda hpw hun hs2
    unfold DirkManager.request_signature
    rw [h1]
    dsimp only
    rw [if_pos ⟨h2, h3⟩]
    unfold DirkManager.sign_retry DirkManager.get_pubkey_account
    rw [hc]
    simp only [DirkManager.get_all_accounts, get_accounts_in_wallets, hl, hls, hda,
      DirkManager.read_password, unlock_account, hpw, hun, ne_eq,
      not_true_eq_false, if_false, ite_false]
    rw [hs2]
    dsimp only
    constructor
    · simp
    · intro hr2
      simp [hr2]
  · intro r1 h1 hncond hns
    unfold DirkManager.request_signature
    rw [h1]
    dsimp only
    rw [if_neg hncond]
    dsimp only
    simp [hns]

/-- Environment exercising the cache-miss unlock-retry of a proxy-style
account: denied first `Sign`, successful `ListAccounts` resolving the key,
passphrase read, successful unlock, and a second `Sign` that is denied
again. -/
def envRetryListDenied : SignEnv :=
  ⟨.ok ⟨ResponseState.denied, []⟩,
    .ok ⟨ResponseState.succeeded, [⟨"wallet1/acct1/mev/u7", pkUnknown⟩]⟩,
    .ok "pw", .ok ResponseState.succeeded, .ok ⟨ResponseState.denied, []⟩⟩

/-- Witness for C3: the cache-hit unlock-retry on a concrete denied-then-
succeeded execution with the claimed four-event trace, and the cache-miss
(`ListAccounts`-resolved) retry on a concrete denied-again execution with the
claimed five-event trace and the `DirkCommunicationError` outcome. -/
theorem c3_unlock_retry_once_witness :
    (sampleManager.request_signature envRetryOk samplePk sampleRoot).1 =
      [Event.signReq samplePk (compute_domain sampleManager.chain COMMIT_BOOST_DOMAIN)
        sampleRoot,
       Event.readFile (sampleManager.secrets_path ++ "/" ++ sampleAccount.complete_name),
       Event.unlockReq sampleAccount.complete_name (strBytes "pw"),
       Event.signReq samplePk (compute_domain sampleManager.chain COMMIT_BOOST_DOMAIN)
        sampleRoot] ∧
    (sampleManager.request_signature envRetryListDenied pkUnknown sampleRoot).1 =
      [Event.signReq pkUnknown (compute_domain sampleManager.chain COMMIT_BOOST_DOMAIN)
        sampleRoot,
       Event.listAccountsReq (sampleManager.accounts.map Account.wallet),
       Event.readFile (sampleManager.secrets_path ++ "/" ++ "wallet1/acct1/mev/u7"),
       Event.unlockReq "wallet1/acct1/mev/u7" (strBytes "pw"),
       Event.signReq pkUnknown (compute_domain sampleManager.chain COMMIT_BOOST_DOMAIN)
        sampleRoot] ∧
    (sampleManager.request_signature envRetryListDenied pkUnknown sampleRoot).2 =
      .error (.DirkCommunicationError "sign request returned error") :=
  ⟨((c3_unlock_retry_once sampleManager envRetryOk samplePk sampleRoot).2.1
      ⟨ResponseState.denied, []⟩ sampleAccount "pw" ⟨ResponseState.succeeded, sampleSig⟩
      rfl rfl rfl rfl rfl rfl rfl).1,
    ((c3_unlock_retry_once sampleManager envRetryListDenied pkUnknown sampleRoot).2.2.1
      ⟨ResponseState.denied, []⟩
      ⟨ResponseState.succeeded, [⟨"wallet1/acct1/mev/u7", pkUnknown⟩]⟩
      ⟨"wallet1/acct1/mev/u7", pkUnknown⟩ "pw" ⟨ResponseState.denied, []⟩
      rfl rfl rfl rfl rfl rfl rfl rfl rfl rfl).1,
    ((c3_unlock_retry_once sampleManager envRetryListDenied pkUnknown sampleRoot).2.2.1
      ⟨ResponseState.denied, []⟩
      ⟨ResponseState.succeeded, [⟨"wallet1/acct1/mev/u7", pkUnknown⟩]⟩
      ⟨"wallet1/acct1/mev/u7", pkUnknown⟩ "pw" ⟨ResponseState.denied, []⟩
      rfl rfl rfl rfl rfl rfl rfl rfl rfl rfl).2 (by decide)⟩

/-- C7. `generate_proxy_key` fails with `UnknownConsensusSigner` when the
consensus pubkey resolves to no account, and likewise when the resolved
complete name is not among the configured accounts; in both failure cases the
trace is exactly the resolve trace, which contains no `Generate` request and
no passphrase file write. -/
theorem c7_generate_unknown_consensus (m : DirkManager) (env : GenEnv)
    (module_id : String) (pk : Bytes) :
    ((m.get_pubkey_account env.list pk).2 = .ok none →
      m.generate_proxy_key env module_id pk =
        ((m.get_pubkey_account env.list pk).1,
          .error (.UnknownConsensusSigner pk))) ∧
    (∀ ca, (m.get_pubkey_account env.list pk).2 = .ok (some ca) →
      ((m.accounts.map Account.complete_name).contains ca) = false →
      m.generate_proxy_key env module_id pk =
        ((m.get_pubkey_account env.list pk).1,
          .error (.UnknownConsensusSigner pk))) ∧
    (∀ e, e ∈ (m.get_pubkey_account env.list pk).1 →
      e.isGenerate = false ∧ e.isWrite = false) := by
  refine ⟨?_, ?_, ?_⟩
  · intro h
    unfold DirkManager.generate_proxy_key
    rcases hA : m.get_pubkey_account env.list pk with ⟨tr0, acctRes⟩
    rw [hA] at h
    dsimp only at h ⊢
    subst h
    rfl
  · intro ca h hcon
    unfold DirkManager.generate_proxy_key
    rcases hA : m.get_pubkey_account env.list pk with ⟨tr0, acctRes⟩
    rw [hA] at h
    dsimp only at h ⊢
    subst h
    dsimp only
    rw [if_pos hcon]
  · intro e he
    rcases get_pubkey_account_trace m env.list pk with h | h <;> rw [h] at he <;>
      simp at he
    subst he
    exact ⟨rfl, rfl⟩

/-- A `generate_proxy_key` environment whose fresh `ListAccounts` succeeds but
lists no accounts. -/
def genEnvNone : GenEnv :=
  ⟨"u1", "pw1", .ok ⟨ResponseState.succeeded, []⟩, .error "unused", .error "unused",
    .error "unused", .error "unused", envFirstOk, .error "unused"⟩

/-- A `generate_proxy_key` environment whose fresh `ListAccounts` returns an
account outside the configured set holding the requested key. -/
def genEnvForeign : GenEnv :=
  ⟨"u1", "pw1", .ok ⟨ResponseState.succeeded, [⟨"other/acct", pkUnknown⟩]⟩,
    .error "unused", .error "unused", .error "unused", .error "unused", envFirstOk,
    .error "unused"⟩

/-- Witness for C7: both failure shapes at concrete inputs — an unresolvable
key, and a key resolving to an account outside the configured set. -/
theorem c7_generate_unknown_consensus_witness :
    sampleManager.generate_proxy_key genEnvNone "mev" pkUnknown =
      ((sampleManager.get_pubkey_account genEnvNone.list pkUnknown).1,
        .error (.UnknownConsensusSigner pkUnknown)) ∧
    sampleManager.generate_proxy_key genEnvForeign "mev" pkUnknown =
      ((sampleManager.get_pubkey_account genEnvForeign.list pkUnknown).1,
        .error (.UnknownConsensusSigner pkUnknown)) :=
  ⟨(c7_generate_unknown_consensus sampleManager genEnvNone "mev" pkUnknown).1 rfl,
    (c7_generate_unknown_consensus sampleManager genEnvForeign "mev" pkUnknown).2.1
      "other/acct" rfl rfl⟩

/-- C6. Every map returned by `get_consensus_proxy_maps(module_id)` has an
empty `proxy_ecdsa`, and every `proxy_bls` key in it is parsed from a listed
account whose name starts with `<consensus_complete_name>/<module_id>/` for
the map's consensus account — so that account's path contains
`/<module_id>/`. -/
theorem c6_proxy_maps_scoped (m : DirkManager) (listResp : Except String ListResponse)
    (module_id : String) (lr : ListResponse) (maps : List ConsensusProxyMap)
    (hresp : listResp = .ok lr)
    (h : (m.get_consensus_proxy_maps listResp module_id).2 = .ok maps) :
    ∀ mp ∈ maps, mp.proxy_ecdsa = [] ∧
      ∃ ca ∈ m.accounts, ca.public_key = some mp.consensus ∧
        ∀ pk ∈ mp.proxy_bls, ∃ da ∈ lr.accounts,
          strStartsWith (ca.complete_name ++ "/" ++ module_id ++ "/") da.name = true ∧
          blsTryFrom da.public_key = some pk ∧
          ∃ pre post, da.name.data = pre ++ '/' :: module_id.data ++ '/' :: post := by
  subst hresp
  unfold DirkManager.get_consensus_proxy_maps DirkManager.get_all_accounts
    get_accounts_in_wallets at h
  dsimp only at h
  by_cases hs : lr.state = ResponseState.succeeded
  · simp only [hs, ne_eq, not_true_eq_false, if_false, ite_false] at h
    rw [Except.ok.injEq] at h
    intro mp hmp
    rw [← h] at hmp
    rcases List.mem_filterMap.mp hmp with ⟨ca, hca, hfca⟩
    cases hpk : ca.public_key with
    | none => rw [hpk] at hfca; exact absurd hfca (by simp)
    | some key =>
      rw [hpk] at hfca
      dsimp only at hfca
      rw [Option.some.injEq] at hfca
      subst hfca
      refine ⟨rfl, ca, hca, hpk, ?_⟩
      intro pk hpkmem
      rcases List.mem_filterMap.mp hpkmem with ⟨da, hda, hgda⟩
      by_cases hsw : strStartsWith (ca.complete_name ++ "/" ++ module_id ++ "/") da.name = true
      · rw [if_pos hsw] at hgda
        refine ⟨da, hda, hsw, hgda, ?_⟩
        have hpre : (ca.complete_name ++ "/" ++ module_id ++ "/").data <+: da.name.data :=
          List.isPrefixOf_iff_prefix.mp hsw
        rcases hpre with ⟨t, ht⟩
        refine ⟨ca.complete_name.data, t, ?_⟩
        rw [← ht]
        have hslash : ("/" : String).data = ['/'] := rfl
        simp [String.data_append, hslash, List.append_assoc]
      · rw [if_neg hsw] at hgda
        exact absurd hgda (by simp)
  · simp [hs] at h

/-- Witness for C6 at a concrete listing: one in-scope proxy account, one
account of another module filtered out; stated at the single returned map. -/
theorem c6_proxy_maps_scoped_witness :
    (ConsensusProxyMap.mk samplePk [List.replicate 48 9] []).proxy_ecdsa = [] ∧
    ∃ ca ∈ sampleManager.accounts,
      ca.public_key = some (ConsensusProxyMap.mk samplePk [List.replicate 48 9] []).consensus ∧
      ∀ pk ∈ (ConsensusProxyMap.mk samplePk [List.replicate 48 9] []).proxy_bls,
        ∃ da ∈ [DirkAccount.mk "wallet1/acct1/mev/u2" (List.replicate 48 9),
                DirkAccount.mk "wallet1/acct1/other/u3" (List.replicate 48 8)],
          strStartsWith (ca.complete_name ++ "/" ++ "mev" ++ "/") da.name = true ∧
          blsTryFrom da.public_key = some pk ∧
          ∃ pre post, da.name.data = pre ++ '/' :: ("mev" : String).data ++ '/' :: post :=
  c6_proxy_maps_scoped sampleManager
    (.ok ⟨ResponseState.succeeded,
      [⟨"wallet1/acct1/mev/u2", List.replicate 48 9⟩,
       ⟨"wallet1/acct1/other/u3", List.replicate 48 8⟩]⟩)
    "mev"
    ⟨ResponseState.succeeded,
      [⟨"wallet1/acct1/mev/u2", List.replicate 48 9⟩,
       ⟨"wallet1/acct1/other/u3", List.replicate 48 8⟩]⟩
    [ConsensusProxyMap.mk samplePk [List.replicate 48 9] []]
    rfl rfl
    (ConsensusProxyMap.mk samplePk [List.replicate 48 9] []) (by simp)

/-- A successful `store_password` performed exactly a directory creation
followed by the passphrase file write. -/
theorem store_password_success (m : DirkManager) (dirRes writeRes : Except String Unit)
    (account password : String)
    (h : (m.store_password dirRes writeRes account password).2 = .ok ()) :
    ∃ dd, (m.store_password dirRes writeRes account password).1 =
      [Event.createDirAll (m.secrets_path ++ "/" ++ dd),
       Event.writeFile (m.secrets_path ++ "/" ++ account) password] := by
  unfold DirkManager.store_password at h ⊢
  cases hrs : rsplitOnceSlash account with
  | none => rw [hrs] at h; simp at h
  | some p =>
    obtain ⟨dd, rest⟩ := p
    rw [hrs] at h
    cases hdr : dirRes with
    | error e => rw [hdr] at h; simp at h
    | ok u =>
      rw [hdr] at h
      cases hwr : writeRes with
      | error e => rw [hwr] at h; simp at h
      | ok u2 => exact ⟨dd, rfl⟩

/-- C4. Every successful `generate_proxy_key` run performs, in order: the
account resolution (whose trace holds no `Generate` and no file write), the
`Generate` request for `<consensus_account>/<module_id>/<uuid>` with the
minted uuid and passphrase, the passphrase-directory creation and passphrase
file write, the `Unlock`, the delegation-signature request trace — each of
whose `Sign` requests targets the consensus key — and, exactly when a proxy
store is configured, the delegation persist at the very end. In particular
the passphrase file is written before the `Unlock` and before any `Sign` of
the delegation. (The v4 uuid and the random passphrase are minted by the
environment, which models the source's calls to the uuid and rng
libraries.) -/
theorem c4_generate_order (m : DirkManager) (env : GenEnv) (module_id : String)
    (pk : Bytes) (tr : List Event) (d : SignedProxyDelegation)
    (h : m.generate_proxy_key env module_id pk = (tr, .ok d)) :
    ∃ ca proxyKey dirPath trStore,
      (m.get_pubkey_account env.list pk).2 = .ok (some ca) ∧
      d.delegator = pk ∧ d.proxy = proxyKey ∧
      tr = (m.get_pubkey_account env.list pk).1 ++
        [Event.generateReq (ca ++ "/" ++ module_id ++ "/" ++ env.uuid)
          (strBytes env.password) 1 1,
         Event.createDirAll dirPath,
         Event.writeFile
          (m.secrets_path ++ "/" ++ (ca ++ "/" ++ module_id ++ "/" ++ env.uuid))
          env.password,
         Event.unlockReq (ca ++ "/" ++ module_id ++ "/" ++ env.uuid)
          (strBytes env.password)] ++
        (m.request_signature env.signEnv pk (delegationRoot pk proxyKey)).1 ++ trStore ∧
      (∀ i dd dat, Event.signReq i dd dat ∈
        (m.request_signature env.signEnv pk (delegationRoot pk proxyKey)).1 → i = pk) ∧
      ((m.proxy_store = none ∧ trStore = []) ∨
        (m.proxy_store = some () ∧
          trStore = [Event.storeBlsDelegation module_id pk proxyKey d.signature])) ∧
      (∀ e ∈ (m.get_pubkey_account env.list pk).1,
        e.isGenerate = false ∧ e.isWrite = false) := by
  unfold DirkManager.generate_proxy_key at h
  rcases hA : m.get_pubkey_account env.list pk with ⟨tr0, acctRes⟩
  have htr0 : tr0 = [] ∨ tr0 = [Event.listAccountsReq (m.accounts.map Account.wallet)] := by
    have hx := get_pubkey_account_trace m env.list pk
    rw [hA] at hx
    exact hx
  rw [hA] at h
  try dsimp only at h
  cases acctRes with
  | error e => simp at h
  | ok o =>
    cases o with
    | none => simp at h
    | some ca =>
      try dsimp only at h
      by_cases hcon : ((m.accounts.map Account.complete_name).contains ca) = false
      · rw [if_pos hcon] at h
        simp at h
      · rw [if_neg hcon] at h
        cases hg : env.generateResp with
        | error err => rw [hg] at h; simp at h
        | ok p =>
          obtain ⟨st, retKey⟩ := p
          rw [hg] at h
          try dsimp only at h
          by_cases hst : st = ResponseState.succeeded
          · rw [if_neg (not_not_intro hst)] at h
            rcases hSP : m.store_password env.dirRes env.writeRes
              (ca ++ "/" ++ module_id ++ "/" ++ env.uuid) env.password with ⟨tr1, spRes⟩
            rw [hSP] at h
            try dsimp only at h
            cases spRes with
            | error e => simp at h
            | ok u =>
              cases u
              obtain ⟨dd, hdd⟩ := store_password_success m env.dirRes env.writeRes
                (ca ++ "/" ++ module_id ++ "/" ++ env.uuid) env.password (by rw [hSP])
              rw [hSP] at hdd
              dsimp only at hdd
              subst hdd
              cases hbt : blsTryFrom retKey with
              | none => rw [hbt] at h; simp at h
              | some proxyKey =>
                rw [hbt] at h
                try dsimp only at h
                simp only [unlock_account] at h
                try dsimp only at h
                cases hu : env.unlockResp with
                | error uerr => rw [hu] at h; simp at h
                | ok st2 =>
                  rw [hu] at h
                  try dsimp only at h
                  by_cases hst2 : st2 = ResponseState.succeeded
                  · rw [if_neg (not_not_intro hst2)] at h
                    try dsimp only at h
                    rcases hRS : m.request_signature env.signEnv pk
                      (delegationRoot pk proxyKey) with ⟨tr3, sigRes⟩
                    rw [hRS] at h
                    try dsimp only at h
                    cases sigRes with
                    | error e => simp at h
                    | ok signature =>
                      have hsignm : ∀ i dd2 dat, Event.signReq i dd2 dat ∈
                          (m.request_signature env.signEnv pk
                            (delegationRoot pk proxyKey)).1 → i = pk :=
                        fun i dd2 dat hmem =>
                          ((request_signature_signs m env.signEnv pk
                            (delegationRoot pk proxyKey)).1 i dd2 dat hmem).1
                      have hres : ∀ e ∈ (tr0 : List Event),
                          e.isGenerate = false ∧ e.isWrite = false := by
                        rcases htr0 with hx | hx <;> subst hx <;> simp [Event.isGenerate,
                          Event.isWrite]
                      cases hps : m.proxy_store with
                      | none =>
                        rw [hps] at h
                        try dsimp only at h
                        rw [Prod.mk.injEq] at h
                        obtain ⟨htr, hd⟩ := h
                        rw [Except.ok.injEq] at hd
                        subst hd
                        refine ⟨ca, proxyKey, m.secrets_path ++ "/" ++ dd, [],
                          rfl, rfl, rfl, ?_, hsignm, Or.inl ⟨rfl, rfl⟩, ?_⟩
                        · rw [← htr, hRS]
                          simp [List.append_assoc]
                        · intro e he
                          exact hres e (by simpa using he)
                      | some u3 =>
                        cases u3
                        rw [hps] at h
                        try dsimp only at h
                        cases hsr : env.storeRes with
                        | error serr => rw [hsr] at h; simp at h
                        | ok u4 =>
                          rw [hsr] at h
                          try dsimp only at h
                          rw [Prod.mk.injEq] at h
                          obtain ⟨htr, hd⟩ := h
                          rw [Except.ok.injEq] at hd
                          subst hd
                          refine ⟨ca, proxyKey, m.secrets_path ++ "/" ++ dd,
                            [Event.storeBlsDelegation module_id pk proxyKey signature],
                            rfl, rfl, rfl, ?_, hsignm, Or.inr ⟨rfl, rfl⟩, ?_⟩
                          · rw [← htr, hRS]
                            simp [List.append_assoc]
                          · intro e he
                            exact hres e (by simpa using he)
                  · rw [if_pos hst2] at h
                    simp at h
          · rw [if_pos hst] at h
            simp at h

/-- A fully successful `generate_proxy_key` environment, with the proxy-store
persist also succeeding. -/
def genEnvOkStore : GenEnv :=
  ⟨"u1", "pw1", .error "unused", .ok ⟨ResponseState.succeeded, sampleProxyPk⟩, .ok (),
    .ok (), .ok ResponseState.succeeded, envFirstOk, .ok ()⟩

/-- Witness for C4: the ordered decomposition at a concrete successful run
with a proxy store configured. -/
theorem c4_generate_order_witness :
    ∃ ca proxyKey dirPath trStore,
      (sampleManagerStore.get_pubkey_account genEnvOkStore.list samplePk).2 =
        .ok (some ca) ∧
      (⟨samplePk, sampleProxyPk, sampleSig⟩ : SignedProxyDelegation).delegator = samplePk ∧
      (⟨samplePk, sampleProxyPk, sampleSig⟩ : SignedProxyDelegation).proxy = proxyKey ∧
      (sampleManagerStore.generate_proxy_key genEnvOkStore "mev" samplePk).1 =
        (sampleManagerStore.get_pubkey_account genEnvOkStore.list samplePk).1 ++
        [Event.generateReq (ca ++ "/" ++ "mev" ++ "/" ++ genEnvOkStore.uuid)
          (strBytes genEnvOkStore.password) 1 1,
         Event.createDirAll dirPath,
         Event.writeFile
          (sampleManagerStore.secrets_path ++ "/" ++
            (ca ++ "/" ++ "mev" ++ "/" ++ genEnvOkStore.uuid))
          genEnvOkStore.password,
         Event.unlockReq (ca ++ "/" ++ "mev" ++ "/" ++ genEnvOkStore.uuid)
          (strBytes genEnvOkStore.password)] ++
        (sampleManagerStore.request_signature genEnvOkStore.signEnv samplePk
          (delegationRoot samplePk proxyKey)).1 ++ trStore ∧
      (∀ i dd dat, Event.signReq i dd dat ∈
        (sampleManagerStore.request_signature genEnvOkStore.signEnv samplePk
          (delegationRoot samplePk proxyKey)).1 → i = samplePk) ∧
      ((sampleManagerStore.proxy_store = none ∧ trStore = []) ∨
        (sampleManagerStore.proxy_store = some () ∧
          trStore = [Event.storeBlsDelegation "mev" samplePk proxyKey
            (⟨samplePk, sampleProxyPk, sampleSig⟩ : SignedProxyDelegation).signature])) ∧
      (∀ e ∈ (sampleManagerStore.get_pubkey_account genEnvOkStore.list samplePk).1,
        e.isGenerate = false ∧ e.isWrite = false) :=
  c4_generate_order sampleManagerStore genEnvOkStore "mev" samplePk
    (sampleManagerStore.generate_proxy_key genEnvOkStore "mev" samplePk).1
    ⟨samplePk, sampleProxyPk, sampleSig⟩ rfl

end CommitBoost
